import Mathlib

/-
Verification of the career-match evaluator (src/app.py) against its
natural-language specification.

The embedding is shallow:
* JSON values (the result of Python's `json.load` / `response.json()`) are
  modelled by the inductive `JsonValue`; JSON numbers are modelled as `Int`
  (no arithmetic is ever performed on them, only truthiness tests).
* An HTTP interaction is modelled by `HttpOutcome`: either the
  `requests.post` call raised a `RequestException` (carrying the exception
  message), or it produced a response with a status code, a body text, and
  the result of attempting to parse that body as JSON (`none` when
  `response.json()` raises).
* The persistence file is modelled by `FileState`: missing, present but not
  valid JSON, or present with a parsed JSON value.  `save_user_data` is
  modelled on its successful path (the code swallows I/O errors; a failed
  write leaves the file untouched and is environment nondeterminism outside
  the scope of these claims).
* The `if submit:` block of `main` is modelled by `main_onSubmit`, a pure
  function from the form inputs and the HTTP outcome to the list of
  user-visible actions it performs, in order.
-/

namespace CareerMatch

/-- A JSON value as produced by Python's `json` module.  Objects are kept as
ordered key/value lists; lookup takes the last binding for a key, matching
`dict` construction from duplicate keys in `json.load`. -/
inductive JsonValue where
  | null : JsonValue
  | bool : Bool → JsonValue
  | num : Int → JsonValue
  | str : String → JsonValue
  | arr : List JsonValue → JsonValue
  | obj : List (String × JsonValue) → JsonValue

/-- Lookup in a JSON object's field list; the last binding for a key wins,
as in a Python `dict` built from a JSON text with duplicate keys. -/
def jsonLookup : List (String × JsonValue) → String → Option JsonValue
  | [], _ => none
  | (k, v) :: rest, key =>
    match jsonLookup rest key with
    | some w => some w
    | none => if k = key then some v else none

/-- Python subscripting `x[key]` with a string key, with any raised exception
mapped to `none`: succeeds only on objects (dicts) holding the key. -/
def JsonValue.getKey : JsonValue → String → Option JsonValue
  | .obj fields, key => jsonLookup fields key
  | _, _ => none

/-- Python subscripting `x[i]` with a non-negative integer index, with any
raised exception mapped to `none`: succeeds on lists (indexing) and on
strings (yielding a one-character string), as in Python. -/
def JsonValue.getIdx : JsonValue → Nat → Option JsonValue
  | .arr xs, i => xs.get? i
  | .str s, i => (s.toList.get? i).map fun c => JsonValue.str (String.mk [c])
  | _, _ => none

/-- Python truthiness (`bool(x)`) of a JSON value: `None`, `False`, `0`,
`""`, `[]` and `\x7b\x7d` are falsy, everything else truthy. -/
def JsonValue.isTruthy : JsonValue → Bool
  | .null => false
  | .bool b => b
  | .num n => n != 0
  | .str s => s != ""
  | .arr xs => !xs.isEmpty
  | .obj fields => !fields.isEmpty

/-- Is the value a non-empty JSON string? -/
def JsonValue.isNonemptyString : JsonValue → Bool
  | .str s => s != ""
  | _ => false

/-- The extraction `data["choices"][0]["message"]["content"]` from
`call_openrouter`, with the surrounding `try`/`except` mapped to `Option`
(`none` when any subscript raises, i.e. when the path is absent). -/
def extractContent (data : JsonValue) : Option JsonValue :=
  (((data.getKey "choices").bind fun c => c.getIdx 0).bind
    fun m => m.getKey "message").bind fun v => v.getKey "content"

/-- The result record of `call_openrouter`:
`\x7b"ok": bool, "content": ..., "raw": ..., "error": Optional[str]\x7d`.
`content` is a `JsonValue` because the code stores the extracted value
unchanged, whatever its JSON type. -/
structure EvalResult where
  ok : Bool
  content : JsonValue
  raw : JsonValue
  error : Option String

/-- The outcome of the `requests.post` call inside `call_openrouter`:
either the call raised a `requests.RequestException` with message `msg`,
or it returned a response with `status` (`status_code`), body `text`, and
`body` the result of `response.json()` (`none` when parsing raises). -/
inductive HttpOutcome where
  | exc : String → HttpOutcome
  | resp : Nat → String → Option JsonValue → HttpOutcome

/-- The outcome classification of `call_openrouter` (src/app.py lines
107-157), as a function of the HTTP outcome.  The prompt-building and the
request payload do not affect the returned record and are not modelled. -/
def call_openrouter : HttpOutcome → EvalResult
  | .exc msg =>
    ⟨false, .str "", .obj [], some ("Network error: " ++ msg)⟩
  | .resp status text body =>
    if status ≠ 200 then
      ⟨false, .str "",
        .obj [("status_code", .num (Int.ofNat status)), ("text", .str text)],
        some ("API error " ++ toString status ++ ": " ++ text)⟩
    else
      match body with
      | none =>
        ⟨false, .str "", .obj [("text", .str text)],
          some "Failed to parse API response as JSON."⟩
      | some data =>
        match extractContent data with
        | some c =>
          if c.isTruthy then ⟨true, c, data, none⟩
          else ⟨false, .str "", data, some "Empty response from model."⟩
        | none =>
          ⟨false, .str "", data, some "Empty response from model."⟩

/-- The state of the persistence file `career_match_data.json`:
missing, present but not valid JSON, or present with parsed content. -/
inductive FileState where
  | missing : FileState
  | corrupt : FileState
  | json : JsonValue → FileState

/-- `save_user_data` (src/app.py lines 13-25) on its successful path: the
file now holds the JSON object with the three fields.  (I/O failures are
swallowed by the code and leave the file untouched.) -/
def save_user_data (resume_text misc_criteria api_key : String) : FileState :=
  .json (.obj
    [("resume_text", .str resume_text),
     ("misc_criteria", .str misc_criteria),
     ("api_key", .str api_key)])

/-- The record returned by `load_user_data`: the three values read from the
file.  Fields are `JsonValue` because `data.get(key, "")` returns whatever
value is stored under the key, of any JSON type. -/
structure StoredProfile where
  resume_text : JsonValue
  misc_criteria : JsonValue
  api_key : JsonValue

/-- Python `dict.get(key, default)` on a JSON object's field list. -/
def dictGetD (fields : List (String × JsonValue)) (key : String)
    (dflt : JsonValue) : JsonValue :=
  match jsonLookup fields key with
  | some v => v
  | none => dflt

/-- `load_user_data` (src/app.py lines 28-42): reads the file if present;
any failure (missing file, invalid JSON, non-dict content — `data.get`
raises on a non-dict and the exception is swallowed) yields the all-empty
record; individually missing keys default to `""` via `dict.get`. -/
def load_user_data : FileState → StoredProfile
  | .json (.obj fields) =>
    ⟨dictGetD fields "resume_text" (.str ""),
     dictGetD fields "misc_criteria" (.str ""),
     dictGetD fields "api_key" (.str "")⟩
  | _ => ⟨.str "", .str "", .str ""⟩

/-- Python `str.strip()`: remove leading and trailing whitespace. -/
def pyStrip (s : String) : String :=
  String.mk
    (((s.toList.dropWhile Char.isWhitespace).reverse.dropWhile
      Char.isWhitespace).reverse)

/-- Python `x or default` where `x` is `Optional[str]`: the default replaces
both `None` and the empty string. -/
def pyOrStr : Option String → String → String
  | some s, d => if s = "" then d else s
  | none, d => d

/-- A user-visible action performed by the `if submit:` block of `main`. -/
inductive UiEvent where
  | showError : String → UiEvent
  | networkCall : UiEvent
  | saveData : String → String → String → UiEvent
  | showResultError : String → UiEvent
  | showResultContent : JsonValue → UiEvent
  | showRaw : JsonValue → UiEvent

/-- The `if submit:` block of `main` (src/app.py lines 221-256), as the
ordered list of user-visible actions it performs, given the form inputs and
the outcome of the HTTP call.  Validation mirrors the code: resume and job
description are checked stripped, the API key unstripped; an early error
returns before any network call.  After the call the inputs are saved when
`resume_text.strip() or misc_criteria.strip() or api_key.strip()` is
truthy, and only then is `result["ok"]` inspected to choose the display. -/
def main_onSubmit (resume_text job_description api_key misc_criteria : String)
    (outcome : HttpOutcome) : List UiEvent :=
  if pyStrip resume_text = "" then
    [.showError "Please paste your resume."]
  else if pyStrip job_description = "" then
    [.showError "Please paste the job description."]
  else if api_key = "" then
    [.showError "Please enter your OpenRouter API key in the sidebar."]
  else
    let result := call_openrouter outcome
    let saveEvents : List UiEvent :=
      if pyStrip resume_text != "" || pyStrip misc_criteria != "" ||
          pyStrip api_key != "" then
        [.saveData resume_text misc_criteria api_key]
      else []
    let resultEvents : List UiEvent :=
      if !result.ok then
        [.showResultError (pyOrStr result.error "Unknown error"),
         .showRaw result.raw]
      else
        [.showResultContent result.content, .showRaw result.raw]
    .networkCall :: (saveEvents ++ resultEvents)

/-- Is the optional string present and non-empty? -/
def optStrNonempty : Option String → Bool
  | some s => s != ""
  | none => false

/-- Appending to a non-empty string yields a non-empty string. -/
theorem append_ne_empty (s t : String) (h : s ≠ "") : s ++ t ≠ "" := by
  intro hc
  have h1 : (s ++ t).length = 0 := by rw [hc]; rfl
  rw [String.length_append] at h1
  have h2 : s.length = 0 := Nat.eq_zero_of_add_eq_zero_right h1
  refine h ?_
  cases s with
  | mk data =>
    cases data with
    | nil => rfl
    | cons c cs =>
      have h3 : (String.mk (c :: cs)).length = cs.length + 1 := rfl
      omega

/-- Claim C1: for every HTTP response with status 200 whose body parses as
JSON and contains `choices[0].message.content` as a non-empty string `S`,
`call_openrouter` returns `ok = true`, `content = S`, `error = none`, and
`raw` equal to the full parsed body. -/
theorem call_openrouter_success (text : String) (data : JsonValue) (S : String)
    (hS : extractContent data = some (.str S)) (hne : S ≠ "") :
    call_openrouter (.resp 200 text (some data)) = ⟨true, .str S, data, none⟩ := by
  simp [call_openrouter, hS, JsonValue.isTruthy, hne]

/-- Witness for C1 at a concrete 200 response whose content is `"hi"`. -/
theorem call_openrouter_success_witness :
    extractContent
      (.obj [("choices", .arr [.obj [("message", .obj [("content", .str "hi")])]])]) =
      some (.str "hi") ∧
    ("hi" : String) ≠ "" ∧
    call_openrouter (.resp 200 "body"
      (some (.obj [("choices", .arr [.obj [("message", .obj [("content", .str "hi")])]])]))) =
      ⟨true, .str "hi",
        .obj [("choices", .arr [.obj [("message", .obj [("content", .str "hi")])]])],
        none⟩ :=
  ⟨rfl, by decide, call_openrouter_success "body" _ "hi" rfl (by decide)⟩

/-- Claim C3: for every HTTP response with status different from 200,
regardless of body, `call_openrouter` returns `ok = false`, error
`"API error <status>: <body>"`, and `raw` holding the status code and the
body text. -/
theorem call_openrouter_non200 (status : Nat) (text : String)
    (body : Option JsonValue) (h : status ≠ 200) :
    call_openrouter (.resp status text body) =
      ⟨false, .str "",
        .obj [("status_code", .num (Int.ofNat status)), ("text", .str text)],
        some ("API error " ++ toString status ++ ": " ++ text)⟩ := by
  simp [call_openrouter, h]

/-- Witness for C3 at a concrete 404 response. -/
theorem call_openrouter_non200_witness :
    (404 : Nat) ≠ 200 ∧
    call_openrouter (.resp 404 "not found" none) =
      ⟨false, .str "",
        .obj [("status_code", .num (Int.ofNat 404)), ("text", .str "not found")],
        some ("API error " ++ toString (404 : Nat) ++ ": " ++ "not found")⟩ :=
  ⟨by decide, call_openrouter_non200 404 "not found" none (by decide)⟩

/-- Claim C4: for every 200 response with valid JSON where
`choices[0].message.content` is absent, `null`, or the empty string,
`call_openrouter` returns `ok = false`, error `"Empty response from
model."`, and `raw` equal to the full parsed body. -/
theorem call_openrouter_empty_content (text : String) (data : JsonValue)
    (h : extractContent data = none ∨ extractContent data = some .null ∨
      extractContent data = some (.str "")) :
    call_openrouter (.resp 200 text (some data)) =
      ⟨false, .str "", data, some "Empty response from model."⟩ := by
  rcases h with h | h | h <;> simp [call_openrouter, h, JsonValue.isTruthy]

/-- Witness for C4 at a concrete 200 response whose JSON body lacks the
`choices` path. -/
theorem call_openrouter_empty_content_witness :
    (extractContent (.obj []) = none ∨ extractContent (.obj []) = some .null ∨
      extractContent (.obj []) = some (.str "")) ∧
    call_openrouter (.resp 200 "t" (some (.obj []))) =
      ⟨false, .str "", .obj [], some "Empty response from model."⟩ :=
  ⟨Or.inl rfl, call_openrouter_empty_content "t" (.obj []) (Or.inl rfl)⟩

/-- Claim C10: for every 200 response with valid JSON where
`choices[0].message.content` exists but is falsy under Python truthiness
(e.g. `false`, `0`, or an empty list), `call_openrouter` classifies it as
empty: `ok = false` with error `"Empty response from model."`. -/
theorem call_openrouter_falsy_content (text : String) (data c : JsonValue)
    (h1 : extractContent data = some c) (h2 : c.isTruthy = false) :
    call_openrouter (.resp 200 text (some data)) =
      ⟨false, .str "", data, some "Empty response from model."⟩ := by
  simp [call_openrouter, h1, h2]

/-- Witness for C10 at a concrete 200 response whose content is the JSON
boolean `false`. -/
theorem call_openrouter_falsy_content_witness :
    extractContent
      (.obj [("choices", .arr [.obj [("message", .obj [("content", .bool false)])]])]) =
      some (.bool false) ∧
    JsonValue.isTruthy (.bool false) = false ∧
    call_openrouter (.resp 200 "t"
      (some (.obj [("choices", .arr [.obj [("message", .obj [("content", .bool false)])]])]))) =
      ⟨false, .str "",
        .obj [("choices", .arr [.obj [("message", .obj [("content", .bool false)])]])],
        some "Empty response from model."⟩ :=
  ⟨rfl, rfl, call_openrouter_falsy_content "t" _ (.bool false) rfl rfl⟩

/-- Counterexample to claim C2 as stated: a 200 response whose
`choices[0].message.content` is the truthy non-string JSON value `[1]`
yields `ok = true` with `content` not a non-empty string (it is the list
itself, which the code stores unchanged). -/
theorem call_openrouter_invariant_counterexample :
    (call_openrouter (.resp 200 "t"
      (some (.obj [("choices",
        .arr [.obj [("message", .obj [("content", .arr [.num 1])])]])])))).ok = true ∧
    (call_openrouter (.resp 200 "t"
      (some (.obj [("choices",
        .arr [.obj [("message", .obj [("content", .arr [.num 1])])]])])))).content.isNonemptyString
      = false :=
  ⟨rfl, rfl⟩

/-- Claim C2 (amended): for every outcome, `ok = true` implies `content` is
a truthy JSON value (in particular a non-empty string whenever it is a
string) and `error = none`; `ok = false` implies `content` is the empty
string and `error` is a non-empty string.  Exactly one of the two cases
holds since `ok` is a boolean. -/
theorem call_openrouter_invariant (outcome : HttpOutcome) :
    ((call_openrouter outcome).ok = true →
      (call_openrouter outcome).content.isTruthy = true ∧
      (call_openrouter outcome).error = none) ∧
    ((call_openrouter outcome).ok = false →
      (call_openrouter outcome).content = .str "" ∧
      optStrNonempty (call_openrouter outcome).error = true) := by
  cases outcome with
  | exc msg =>
    constructor
    · intro h; simp [call_openrouter] at h
    · intro _
      have hne := append_ne_empty "Network error: " msg (by decide)
      exact ⟨rfl, by simp [call_openrouter, optStrNonempty, hne]⟩
  | resp status text body =>
    by_cases hs : status = 200
    · subst hs
      cases body with
      | none =>
        constructor
        · intro h; simp [call_openrouter] at h
        · intro _; exact ⟨rfl, by simp [call_openrouter, optStrNonempty]⟩
      | some data =>
        rcases hE : extractContent data with _ | c
        · constructor
          · intro h; simp [call_openrouter, hE] at h
          · intro _
            exact ⟨by simp [call_openrouter, hE],
              by simp [call_openrouter, hE, optStrNonempty]⟩
        · by_cases ht : c.isTruthy
          · constructor
            · intro _
              exact ⟨by simp [call_openrouter, hE, ht],
                by simp [call_openrouter, hE, ht]⟩
            · intro h; simp [call_openrouter, hE, ht] at h
          · constructor
            · intro h; simp [call_openrouter, hE, ht] at h
            · intro _
              exact ⟨by simp [call_openrouter, hE, ht],
                by simp [call_openrouter, hE, ht, optStrNonempty]⟩
    · constructor
      · intro h; simp [call_openrouter, hs] at h
      · intro _
        have h1 : ("API error " ++ toString status) ≠ "" :=
          append_ne_empty _ _ (by decide)
        have h2 : ("API error " ++ toString status ++ ": ") ≠ "" :=
          append_ne_empty _ _ h1
        have h3 : ("API error " ++ toString status ++ ": " ++ text) ≠ "" :=
          append_ne_empty _ _ h2
        exact ⟨by simp [call_openrouter, hs],
          by simp [call_openrouter, hs, optStrNonempty, h3]⟩

/-- Witness for C2 (amended) at a concrete transport failure: the `ok =
false` branch applies and yields empty content and a non-empty error. -/
theorem call_openrouter_invariant_witness :
    (call_openrouter (.exc "boom")).content = .str "" ∧
    optStrNonempty (call_openrouter (.exc "boom")).error = true :=
  (call_openrouter_invariant (.exc "boom")).2 rfl

/-- Claim C5: saving a profile and loading it back yields the same three
string values, for arbitrary strings (including empty and unicode). -/
theorem save_load_roundtrip (r m a : String) :
    load_user_data (save_user_data r m a) = ⟨.str r, .str m, .str a⟩ := rfl

/-- Claim C6: `load_user_data` is total (it never raises): on a missing or
corrupted file it returns the all-empty record, and on a valid JSON object
each individually missing key defaults to the empty string while present
keys keep their stored values. -/
theorem load_user_data_defaults :
    load_user_data .missing = ⟨.str "", .str "", .str ""⟩ ∧
    load_user_data .corrupt = ⟨.str "", .str "", .str ""⟩ ∧
    ∀ fields : List (String × JsonValue),
      ((jsonLookup fields "resume_text" = none →
          (load_user_data (.json (.obj fields))).resume_text = .str "") ∧
        ∀ v, jsonLookup fields "resume_text" = some v →
          (load_user_data (.json (.obj fields))).resume_text = v) ∧
      ((jsonLookup fields "misc_criteria" = none →
          (load_user_data (.json (.obj fields))).misc_criteria = .str "") ∧
        ∀ v, jsonLookup fields "misc_criteria" = some v →
          (load_user_data (.json (.obj fields))).misc_criteria = v) ∧
      ((jsonLookup fields "api_key" = none →
          (load_user_data (.json (.obj fields))).api_key = .str "") ∧
        ∀ v, jsonLookup fields "api_key" = some v →
          (load_user_data (.json (.obj fields))).api_key = v) := by
  refine ⟨rfl, rfl, fun fields => ⟨⟨?_, ?_⟩, ⟨?_, ?_⟩, ⟨?_, ?_⟩⟩⟩
  · intro h; simp [load_user_data, dictGetD, h]
  · intro v h; simp [load_user_data, dictGetD, h]
  · intro h; simp [load_user_data, dictGetD, h]
  · intro v h; simp [load_user_data, dictGetD, h]
  · intro h; simp [load_user_data, dictGetD, h]
  · intro v h; simp [load_user_data, dictGetD, h]

/-- Witness for C6 at a file holding only an `api_key` entry: the missing
`resume_text` defaults to `""` and the present `api_key` keeps its value. -/
theorem load_user_data_defaults_witness :
    (load_user_data (.json (.obj [("api_key", .str "k")]))).resume_text = .str "" ∧
    (load_user_data (.json (.obj [("api_key", .str "k")]))).api_key = .str "k" :=
  ⟨(load_user_data_defaults.2.2 [("api_key", .str "k")]).1.1 rfl,
   (load_user_data_defaults.2.2 [("api_key", .str "k")]).2.2.2 (.str "k") rfl⟩

/-- Claim C7: each of the three required fields is validated before any
network call; a missing field alone short-circuits the submission with its
own distinct error message and `call_openrouter` is never invoked. -/
theorem main_onSubmit_validation (r j a m : String) (o : HttpOutcome) :
    (pyStrip r = "" →
      main_onSubmit r j a m o = [.showError "Please paste your resume."] ∧
      UiEvent.networkCall ∉ main_onSubmit r j a m o) ∧
    (pyStrip r ≠ "" → pyStrip j = "" →
      main_onSubmit r j a m o = [.showError "Please paste the job description."] ∧
      UiEvent.networkCall ∉ main_onSubmit r j a m o) ∧
    (pyStrip r ≠ "" → pyStrip j ≠ "" → a = "" →
      main_onSubmit r j a m o =
        [.showError "Please enter your OpenRouter API key in the sidebar."] ∧
      UiEvent.networkCall ∉ main_onSubmit r j a m o) ∧
    ("Please paste your resume." ≠ "Please paste the job description." ∧
      "Please paste your resume." ≠
        "Please enter your OpenRouter API key in the sidebar." ∧
      "Please paste the job description." ≠
        "Please enter your OpenRouter API key in the sidebar.") := by
  refine ⟨fun h => ?_, fun h1 h2 => ?_, fun h1 h2 h3 => ?_,
    by decide, by decide, by decide⟩
  · have ht : main_onSubmit r j a m o = [.showError "Please paste your resume."] := by
      simp [main_onSubmit, h]
    exact ⟨ht, by simp [ht]⟩
  · have ht : main_onSubmit r j a m o =
        [.showError "Please paste the job description."] := by
      simp [main_onSubmit, h1, h2]
    exact ⟨ht, by simp [ht]⟩
  · have ht : main_onSubmit r j a m o =
        [.showError "Please enter your OpenRouter API key in the sidebar."] := by
      simp [main_onSubmit, h1, h2, h3]
    exact ⟨ht, by simp [ht]⟩

/-- Witness for C7 at a whitespace-only resume: the resume error is shown
and no network call happens. -/
theorem main_onSubmit_validation_witness :
    main_onSubmit " " "job" "key" "" (.exc "e") =
      [.showError "Please paste your resume."] ∧
    UiEvent.networkCall ∉ main_onSubmit " " "job" "key" "" (.exc "e") :=
  (main_onSubmit_validation " " "job" "key" "" (.exc "e")).1 rfl

/-- Claim C8: once validation passes, the submitted inputs are saved right
after the network call and before the result's `ok` flag is inspected, for
every call outcome (success or failure): the trace starts with the call
then the save, and only its tail depends on `ok`. -/
theorem main_onSubmit_saves_before_result (r j a m : String) (o : HttpOutcome)
    (h1 : pyStrip r ≠ "") (h2 : pyStrip j ≠ "") (h3 : a ≠ "") :
    (main_onSubmit r j a m o).take 2 = [.networkCall, .saveData r m a] ∧
    (main_onSubmit r j a m o).drop 2 =
      (if (call_openrouter o).ok then
        [.showResultContent (call_openrouter o).content,
          .showRaw (call_openrouter o).raw]
      else
        [.showResultError (pyOrStr (call_openrouter o).error "Unknown error"),
          .showRaw (call_openrouter o).raw]) := by
  cases hok : (call_openrouter o).ok with
  | true => constructor <;> simp [main_onSubmit, h1, h2, h3, hok]
  | false => constructor <;> simp [main_onSubmit, h1, h2, h3, hok]

/-- Witness for C8 at a submission whose network call fails: the inputs are
still saved, before the error is displayed. -/
theorem main_onSubmit_saves_before_result_witness :
    (main_onSubmit "x" "y" "k" "" (.exc "down")).take 2 =
      [.networkCall, .saveData "x" "" "k"] ∧
    (main_onSubmit "x" "y" "k" "" (.exc "down")).drop 2 =
      (if (call_openrouter (.exc "down")).ok then
        [.showResultContent (call_openrouter (.exc "down")).content,
          .showRaw (call_openrouter (.exc "down")).raw]
      else
        [.showResultError
            (pyOrStr (call_openrouter (.exc "down")).error "Unknown error"),
          .showRaw (call_openrouter (.exc "down")).raw]) :=
  main_onSubmit_saves_before_result "x" "y" "k" "" (.exc "down")
    (by decide) (by decide) (by decide)

/-- Claim C9: validation strips whitespace asymmetrically: a whitespace-only
resume or job description is rejected (no network call), but the API key is
checked unstripped, so any non-empty key — even whitespace-only — passes
and the network call is issued. -/
theorem main_onSubmit_whitespace_asymmetry (r j a m : String) (o : HttpOutcome) :
    (pyStrip r = "" → UiEvent.networkCall ∉ main_onSubmit r j a m o) ∧
    (pyStrip r ≠ "" → pyStrip j = "" →
      UiEvent.networkCall ∉ main_onSubmit r j a m o) ∧
    (pyStrip r ≠ "" → pyStrip j ≠ "" → a ≠ "" →
      UiEvent.networkCall ∈ main_onSubmit r j a m o) := by
  refine ⟨fun h => ?_, fun h1 h2 => ?_, fun h1 h2 h3 => ?_⟩
  · simp [main_onSubmit, h]
  · simp [main_onSubmit, h1, h2]
  · simp [main_onSubmit, h1, h2, h3]

/-- Witness for C9 at a whitespace-only API key with non-blank resume and
job description: the key strips to empty yet the network call happens. -/
theorem main_onSubmit_whitespace_asymmetry_witness :
    pyStrip " " = "" ∧
    UiEvent.networkCall ∈ main_onSubmit "resume" "job" " " "" (.exc "e") :=
  ⟨rfl, (main_onSubmit_whitespace_asymmetry "resume" "job" " " "" (.exc "e")).2.2
    (by decide) (by decide) (by decide)⟩

end CareerMatch
